import Mathlib

/-!
Verification of the `Calls` client binding (`src/call.rs`).

The decoder `Call.from_map` is modelled over a map embedding
`StrMap := String → Option String` (the flat string-keyed mapping the
transport hands to the decoder).  `BTreeMap::remove` becomes
`StrMap.remove`, which deletes a key from the lookup function; the
sequential removals of the Rust code are mirrored exactly.  The request
builders `make_call` and `retrieve_call` are modelled as pure functions
returning the `Request` value they hand to the transport.
-/

namespace Twilio

/-- The instruction variant of an outbound call (`CallInstructions` in
`call.rs`): exactly one of a callback URL or inline TwiML markup. -/
inductive CallInstructions where
  | Url (url : String)
  | Twiml (twiml : String)
deriving DecidableEq, Repr

/-- `OutboundCall` from `call.rs`: the transient input value for call
creation. -/
structure OutboundCall where
  «from» : String
  «to» : String
  instructions : CallInstructions
deriving DecidableEq, Repr

/-- The closed status enumeration `CallStatus` from `call.rs`. -/
inductive CallStatus where
  | Queued
  | Ringing
  | InProgress
  | Canceled
  | Completed
  | Failed
  | Busy
  | NoAnswer
deriving DecidableEq, Repr

/-- The decoded call record `Call` from `call.rs`. -/
structure Call where
  «from» : String
  «to» : String
  sid : String
  status : CallStatus
deriving DecidableEq, Repr

/-- Modelled from the spec: the error type `TwilioError` is declared in the
crate root, which is not part of this source tree; §7 of the spec says a
single parsing/validation error kind is surfaced by this component, and
transport-level failures travel on a separate channel out of scope here. -/
inductive TwilioError where
  | ParsingError
deriving DecidableEq, Repr

/-- HTTP method, as used by the two request builders (`GET`/`POST`
constants of the crate root). -/
inductive Method where
  | GET
  | POST
deriving DecidableEq, Repr

/-- The request value handed to the generic transport: method, path and
ordered parameter list (the arguments of `send_request` in `call.rs`). -/
structure Request where
  method : Method
  path : String
  params : List (String × String)
deriving DecidableEq, Repr

/-- The flat string-keyed mapping that is the decoder's input
(`BTreeMap<String, String>` in `call.rs`). -/
def StrMap : Type := String → Option String

/-- `BTreeMap::remove` on the map embedding: the key is gone from every
later lookup. -/
def StrMap.remove (m : StrMap) (k : String) : StrMap :=
  fun q => if q = k then none else m q

/-- `Client::make_call` from `call.rs`, restricted to the request it
builds: parameters `To`, `From`, then `Url` or `Twiml` according to the
instruction variant, sent by POST to path `Calls`. -/
def make_call (call : OutboundCall) : Request :=
  let opts := [("To", call.«to»), ("From", call.«from»)]
  let opts :=
    match call.instructions with
    | .Url url => opts ++ [("Url", url)]
    | .Twiml twiml => opts ++ [("Twiml", twiml)]
  { method := .POST, path := "Calls", params := opts }

/-- `Client::retrieve_call` from `call.rs`, restricted to the request it
builds: GET to path `Calls/{sid}` with no parameters. -/
def retrieve_call (sid : String) : Request :=
  { method := .GET, path := "Calls/" ++ sid, params := [] }

/-- `Call::from_map` from `call.rs`: remove `From`, `To`, `CallSid` in
turn, failing when absent; then match `CallStatus` against the eight
recognized tokens, failing otherwise. -/
def Call.from_map (m : StrMap) : Except TwilioError Call :=
  match m "From" with
  | none => .error .ParsingError
  | some f =>
    match (m.remove "From") "To" with
    | none => .error .ParsingError
    | some t =>
      match ((m.remove "From").remove "To") "CallSid" with
      | none => .error .ParsingError
      | some sid =>
        match (((m.remove "From").remove "To").remove "CallSid") "CallStatus" with
        | some "queued" => .ok ⟨f, t, sid, .Queued⟩
        | some "ringing" => .ok ⟨f, t, sid, .Ringing⟩
        | some "in-progress" => .ok ⟨f, t, sid, .InProgress⟩
        | some "canceled" => .ok ⟨f, t, sid, .Canceled⟩
        | some "completed" => .ok ⟨f, t, sid, .Completed⟩
        | some "failed" => .ok ⟨f, t, sid, .Failed⟩
        | some "busy" => .ok ⟨f, t, sid, .Busy⟩
        | some "no-answer" => .ok ⟨f, t, sid, .NoAnswer⟩
        | _ => .error .ParsingError

/-- The eight recognized `CallStatus` tokens, in the order of the match
arms of `Call::from_map`. -/
def validStatusTokens : List String :=
  ["queued", "ringing", "in-progress", "canceled", "completed", "failed",
   "busy", "no-answer"]

/-- The token-to-variant mapping of the `CallStatus` match in
`Call::from_map`, as a standalone function. -/
def statusOfToken : String → Option CallStatus
  | "queued" => some .Queued
  | "ringing" => some .Ringing
  | "in-progress" => some .InProgress
  | "canceled" => some .Canceled
  | "completed" => some .Completed
  | "failed" => some .Failed
  | "busy" => some .Busy
  | "no-answer" => some .NoAnswer
  | _ => none

/-- The decoder as a function of the four relevant lookups only. -/
def from_map4 (oF oT oS oSt : Option String) : Except TwilioError Call :=
  match oF with
  | none => .error .ParsingError
  | some f =>
    match oT with
    | none => .error .ParsingError
    | some t =>
      match oS with
      | none => .error .ParsingError
      | some sid =>
        match oSt with
        | some "queued" => .ok ⟨f, t, sid, .Queued⟩
        | some "ringing" => .ok ⟨f, t, sid, .Ringing⟩
        | some "in-progress" => .ok ⟨f, t, sid, .InProgress⟩
        | some "canceled" => .ok ⟨f, t, sid, .Canceled⟩
        | some "completed" => .ok ⟨f, t, sid, .Completed⟩
        | some "failed" => .ok ⟨f, t, sid, .Failed⟩
        | some "busy" => .ok ⟨f, t, sid, .Busy⟩
        | some "no-answer" => .ok ⟨f, t, sid, .NoAnswer⟩
        | _ => .error .ParsingError

/-- The four keys `Call::from_map` consults. -/
def relevantKeys : List String := ["From", "To", "CallSid", "CallStatus"]

/-- Restriction of a map to a set of keys. -/
def StrMap.restrict (m : StrMap) (ks : List String) : StrMap :=
  fun k => if k ∈ ks then m k else none

theorem remove_lookup_ne (m : StrMap) (k q : String) (h : q ≠ k) :
    (m.remove k) q = m q := by
  simp [StrMap.remove, h]

theorem from_map_eq_from_map4 (m : StrMap) :
    Call.from_map m
      = from_map4 (m "From") (m "To") (m "CallSid") (m "CallStatus") := by
  unfold Call.from_map from_map4
  rw [remove_lookup_ne _ _ _ (by decide),
    remove_lookup_ne _ _ _ (by decide),
    remove_lookup_ne _ _ _ (by decide),
    remove_lookup_ne _ _ _ (by decide),
    remove_lookup_ne _ _ _ (by decide),
    remove_lookup_ne _ _ _ (by decide)]

theorem from_map4_bad_token (f t s tok : String) (h : tok ∉ validStatusTokens) :
    from_map4 (some f) (some t) (some s) (some tok) = .error .ParsingError := by
  unfold from_map4
  split <;> simp_all [validStatusTokens]

theorem from_map4_ok_sid (oF oT oS oSt : Option String) (c : Call)
    (h : from_map4 oF oT oS oSt = .ok c) : oS = some c.sid := by
  cases oF with
  | none => exact absurd h (by simp [from_map4])
  | some f =>
    cases oT with
    | none => exact absurd h (by simp [from_map4])
    | some t =>
      cases oS with
      | none => exact absurd h (by simp [from_map4])
      | some s =>
        simp only [from_map4] at h
        split at h <;>
          first
          | exact Except.noConfusion h
          | (injection h with h; subst h; rfl)

/-- A sample decoder input containing the four required keys, a recognized
status token and one extra key. -/
def sampleMap : StrMap := fun k =>
  if k = "From" then some "+15550001111"
  else if k = "To" then some "+15550002222"
  else if k = "CallSid" then some "CA123"
  else if k = "CallStatus" then some "in-progress"
  else if k = "Direction" then some "inbound"
  else none

/-- A decoder input lacking the `From` key. -/
def missingFromMap : StrMap := fun k =>
  if k = "To" then some "+15550002222"
  else if k = "CallSid" then some "CA123"
  else if k = "CallStatus" then some "queued"
  else none

/-- A decoder input whose `CallStatus` value is not a recognized token. -/
def badStatusMap : StrMap := fun k =>
  if k = "From" then some "+15550001111"
  else if k = "To" then some "+15550002222"
  else if k = "CallSid" then some "CA123"
  else if k = "CallStatus" then some "unknown"
  else none

/-- A decoder input whose `CallSid` value is the empty string. -/
def emptySidMap : StrMap := fun k =>
  if k = "From" then some "+15550001111"
  else if k = "To" then some "+15550002222"
  else if k = "CallSid" then some ""
  else if k = "CallStatus" then some "queued"
  else none

/-- A decoder input whose three required string values are all empty. -/
def allEmptyMap : StrMap := fun k =>
  if k = "From" then some ""
  else if k = "To" then some ""
  else if k = "CallSid" then some ""
  else if k = "CallStatus" then some "no-answer"
  else none

/-- C1: whenever the input map holds `From`, `To`, `CallSid` and a
recognized `CallStatus` token, `Call.from_map` succeeds and the `from`,
`to` and `sid` fields of the record are verbatim the strings stored under
those keys. -/
theorem from_map_roundtrip (m : StrMap) (f t s tok : String)
    (hF : m "From" = some f) (hT : m "To" = some t)
    (hS : m "CallSid" = some s) (hSt : m "CallStatus" = some tok)
    (htok : tok ∈ validStatusTokens) :
    ∃ st, Call.from_map m = .ok ⟨f, t, s, st⟩ := by
  rw [from_map_eq_from_map4, hF, hT, hS, hSt]
  simp only [validStatusTokens, List.mem_cons, List.not_mem_nil, or_false] at htok
  rcases htok with rfl | rfl | rfl | rfl | rfl | rfl | rfl | rfl <;> exact ⟨_, rfl⟩

/-- C1 witness: the sample map decodes to the record with its three
strings verbatim. -/
theorem from_map_roundtrip_witness :
    ∃ st, Call.from_map sampleMap
      = .ok ⟨"+15550001111", "+15550002222", "CA123", st⟩ :=
  from_map_roundtrip sampleMap _ _ _ _ rfl rfl rfl rfl (by decide)

/-- C2: when any of `From`, `To`, `CallSid` is absent, `Call.from_map`
fails with the parsing error. -/
theorem from_map_missing_required (m : StrMap)
    (h : m "From" = none ∨ m "To" = none ∨ m "CallSid" = none) :
    Call.from_map m = .error .ParsingError := by
  rw [from_map_eq_from_map4]
  rcases h with h | h | h
  · rw [h]; rfl
  · rw [h]; cases m "From" <;> rfl
  · rw [h]; cases m "From" <;> cases m "To" <;> rfl

/-- C2 witness: a map lacking `From` fails to decode. -/
theorem from_map_missing_required_witness :
    Call.from_map missingFromMap = .error .ParsingError :=
  from_map_missing_required missingFromMap (Or.inl rfl)

/-- C3: when `CallStatus` is absent, or present with a value outside the
eight recognized tokens, `Call.from_map` fails with the parsing error. -/
theorem from_map_bad_status (m : StrMap)
    (h : ∀ tok, m "CallStatus" = some tok → tok ∉ validStatusTokens) :
    Call.from_map m = .error .ParsingError := by
  rw [from_map_eq_from_map4]
  cases m "From" with
  | none => rfl
  | some f =>
    cases m "To" with
    | none => rfl
    | some t =>
      cases m "CallSid" with
      | none => rfl
      | some s =>
        cases hSt : m "CallStatus" with
        | none => rfl
        | some tok => exact from_map4_bad_token f t s tok (h tok hSt)

/-- C3 witness: a map whose `CallStatus` is `unknown` fails to decode. -/
theorem from_map_bad_status_witness :
    Call.from_map badStatusMap = .error .ParsingError :=
  from_map_bad_status badStatusMap (by
    intro tok h
    have h' : some "unknown" = some tok := h
    obtain rfl := Option.some_inj.mp h'
    decide)

/-- C4: the token-to-variant mapping of the `CallStatus` match is total
over the eight recognized tokens and injective on them. -/
theorem status_mapping_total_injective :
    (∀ tok ∈ validStatusTokens, (statusOfToken tok).isSome) ∧
    (∀ t1 ∈ validStatusTokens, ∀ t2 ∈ validStatusTokens,
      statusOfToken t1 = statusOfToken t2 → t1 = t2) := by
  decide

/-- C4 witness: totality at `queued` and injectivity instantiated at
`busy`. -/
theorem status_mapping_total_injective_witness :
    (statusOfToken "queued").isSome ∧ "busy" = "busy" :=
  ⟨status_mapping_total_injective.1 "queued" (by decide),
   status_mapping_total_injective.2 "busy" (by decide) "busy" (by decide) rfl⟩

/-- C5: `make_call` always builds a POST request to path `Calls` whose
parameters are `To`, `From`, then exactly one of `Url`/`Twiml` according
to the instruction variant, in that order; in particular at the spec's
concrete example input. -/
theorem make_call_request (f t u w : String) :
    make_call ⟨f, t, .Url u⟩
      = { method := .POST, path := "Calls",
          params := [("To", t), ("From", f), ("Url", u)] } ∧
    make_call ⟨f, t, .Twiml w⟩
      = { method := .POST, path := "Calls",
          params := [("To", t), ("From", f), ("Twiml", w)] } ∧
    make_call ⟨"+15550001111", "+15550002222", .Url "https://example.com/twiml"⟩
      = { method := .POST, path := "Calls",
          params := [("To", "+15550002222"), ("From", "+15550001111"),
                     ("Url", "https://example.com/twiml")] } :=
  ⟨rfl, rfl, rfl⟩

/-- C6: `retrieve_call` builds a GET request to path `Calls/{sid}` with an
empty parameter list. -/
theorem retrieve_call_request (sid : String) :
    retrieve_call sid
      = { method := .GET, path := "Calls/" ++ sid, params := [] } := rfl

/-- C7: decoding ignores unrecognized keys: `Call.from_map` gives the same
result on a map and on its restriction to the four relevant keys. -/
theorem from_map_restrict (m : StrMap) :
    Call.from_map m = Call.from_map (m.restrict relevantKeys) := by
  rw [from_map_eq_from_map4, from_map_eq_from_map4]
  have h1 : (m.restrict relevantKeys) "From" = m "From" := by
    simp [StrMap.restrict, relevantKeys]
  have h2 : (m.restrict relevantKeys) "To" = m "To" := by
    simp [StrMap.restrict, relevantKeys]
  have h3 : (m.restrict relevantKeys) "CallSid" = m "CallSid" := by
    simp [StrMap.restrict, relevantKeys]
  have h4 : (m.restrict relevantKeys) "CallStatus" = m "CallStatus" := by
    simp [StrMap.restrict, relevantKeys]
  rw [h1, h2, h3, h4]

/-- C8 counterexample: a successfully decoded record can have an empty
`sid`: the decoder performs no non-emptiness check on `CallSid`. -/
theorem from_map_empty_sid_cex :
    ∃ c, Call.from_map emptySidMap = Except.ok c ∧ c.sid = "" :=
  ⟨⟨"+15550001111", "+15550002222", "", .Queued⟩, rfl, rfl⟩

/-- C8 amended: every record produced by successful decoding has its `sid`
equal to the string stored under `CallSid` in the input map, which may be
empty. -/
theorem from_map_sid_eq_input (m : StrMap) (c : Call)
    (h : Call.from_map m = .ok c) : m "CallSid" = some c.sid := by
  rw [from_map_eq_from_map4] at h
  exact from_map4_ok_sid _ _ _ _ c h

/-- C8 amended witness: the sample map's record carries `CA123` as sid. -/
theorem from_map_sid_eq_input_witness :
    sampleMap "CallSid" = some "CA123" :=
  from_map_sid_eq_input sampleMap
    ⟨"+15550001111", "+15550002222", "CA123", .InProgress⟩ rfl

/-- C9: `Call.from_map` is total: on every map it returns either a
complete record or the parsing error, and nothing else. -/
theorem from_map_total (m : StrMap) :
    (∃ c, Call.from_map m = .ok c) ∨ Call.from_map m = .error .ParsingError := by
  rw [from_map_eq_from_map4]
  cases m "From" with
  | none => exact .inr rfl
  | some f =>
    cases m "To" with
    | none => exact .inr rfl
    | some t =>
      cases m "CallSid" with
      | none => exact .inr rfl
      | some s =>
        cases m "CallStatus" with
        | none => exact .inr rfl
        | some tok =>
          by_cases htok : tok ∈ validStatusTokens
          · left
            simp only [validStatusTokens, List.mem_cons, List.not_mem_nil,
              or_false] at htok
            rcases htok with rfl | rfl | rfl | rfl | rfl | rfl | rfl | rfl <;>
              exact ⟨_, rfl⟩
          · exact .inr (from_map4_bad_token f t s tok htok)

/-- C10: no emptiness validation: a map whose three required values are
empty strings and whose status token is recognized still decodes, to a
record with empty `from`, `to` and `sid`. -/
theorem from_map_empty_values_ok (m : StrMap) (tok : String)
    (hF : m "From" = some "") (hT : m "To" = some "")
    (hS : m "CallSid" = some "") (hSt : m "CallStatus" = some tok)
    (htok : tok ∈ validStatusTokens) :
    ∃ st, Call.from_map m = .ok ⟨"", "", "", st⟩ := by
  rw [from_map_eq_from_map4, hF, hT, hS, hSt]
  simp only [validStatusTokens, List.mem_cons, List.not_mem_nil, or_false] at htok
  rcases htok with rfl | rfl | rfl | rfl | rfl | rfl | rfl | rfl <;> exact ⟨_, rfl⟩

/-- C10 witness: the all-empty map decodes to the all-empty record. -/
theorem from_map_empty_values_ok_witness :
    ∃ st, Call.from_map allEmptyMap = .ok ⟨"", "", "", st⟩ :=
  from_map_empty_values_ok allEmptyMap _ rfl rfl rfl rfl (by decide)

end Twilio
